import Mathlib

/-!
Verification development for the SYSPRO buying-rule simulator
(src/buying_rule_simulator.py).

The script evaluates a fixed catalog of 17 buying rules (codes A..Q).
For each rule it computes an order quantity from the input parameters
(lines 65-83), a purchase-order schedule of three dated entries
(lines 55-62), and derived annual cost figures, assembling one summary
row per rule (lines 89-128).

The embedding below translates that logic into executable Lean
definitions: Python integers become Nat, the exact values carried by the
Python floats involved here (halves and tenths) become Rat, and calendar
dates become day serial numbers (Int), with a civil-calendar conversion
function used to name concrete dates.
-/

namespace BuyingRules

/-- The 17 rule codes of the fixed catalog (keys of the rules dict,
lines 65-83 of the source). -/
inductive RuleCode where
  | A | B | C | D | E | F | G | H | I | J | K | L | M | N | O | P | Q
deriving DecidableEq

/-- The scalar inputs consumed by rule evaluation.  In the script,
weekly_demand is derived on line 52 from the yearly demand, ebq,
pan_qty, fixed_time_days, yearly_ac_demand and time_per_po are sidebar
inputs (lines 34-41), and start_shortage_date is the first-shortage
date input (line 38), modelled as a day serial number. -/
structure Params where
  weekly_demand : ℕ
  ebq : ℕ
  pan_qty : ℕ
  fixed_time_days : ℕ
  yearly_ac_demand : ℕ
  time_per_po : ℚ
  start_shortage_date : ℤ
deriving DecidableEq

/-- Constant delivery buffer in days (line 44 of the source). -/
def delivery_buffer : ℤ := 15

/-- Constant buyer hourly rate (line 45 of the source). -/
def buyer_rate : ℚ := 35

/-- Constant part price (line 46 of the source). -/
def part_price : ℚ := 50

/-- Exact-integer model of math.ceil(a / b) for natural a and positive
natural b, as used on lines 52, 72-73, 78-80 and 106 of the source. -/
def ceilDiv (a b : ℕ) : ℕ := (a + b - 1) / b

/-- Model of Python max(0, a - b) over the integers, as used inside
rule O (line 80 of the source). -/
def clampSub (a b : ℕ) : ℕ := (max 0 ((a : ℤ) - (b : ℤ))).toNat

/-- Derived weekly demand, line 52 of the source:
weekly_demand = math.ceil(yearly_ac_demand / 52). -/
def derived_weekly (yearly : ℕ) : ℕ := ceilDiv yearly 52

/-- The quantity formulas of the rules dict, lines 65-83 of the source.
Rule C's math.ceil wraps an integer product, hence is the identity and
is dropped; Nat division is Python floor division. -/
def rules (p : Params) : RuleCode → ℕ
  | .A => p.weekly_demand
  | .B => p.ebq
  | .C => p.fixed_time_days / 5 * p.weekly_demand
  | .D => 100 + p.weekly_demand
  | .E => 200 - 12
  | .F => p.pan_qty
  | .G => ceilDiv (p.weekly_demand * 2 + 1) p.ebq * p.ebq
  | .H => ceilDiv (p.weekly_demand * 2 + 1) p.pan_qty * p.pan_qty
  | .I => max p.ebq p.weekly_demand
  | .J => max p.pan_qty p.weekly_demand
  | .K => p.ebq
  | .L => p.pan_qty
  | .M => ceilDiv (p.weekly_demand * 2 + 1) p.ebq * p.ebq
  | .N => ceilDiv (p.weekly_demand * 2 + 1) p.pan_qty * p.pan_qty
  | .O => p.ebq + ceilDiv (clampSub (p.weekly_demand * 2 + 3) p.ebq) p.pan_qty * p.pan_qty
  | .P => 0
  | .Q => 0

/-- The catalog codes in the insertion order of the rules dict, which is
the iteration order of the Python loop on line 90. -/
def catalog : List RuleCode :=
  [.A, .B, .C, .D, .E, .F, .G, .H, .I, .J, .K, .L, .M, .N, .O, .P, .Q]

/-- One line of the PO schedule: the PO release date (day serial) and
the order quantity, modelling the formatted string built on line 60. -/
structure PORow where
  poDate : ℤ
  qty : ℕ
deriving DecidableEq

/-- The loop body of get_po_schedule (lines 56-62): starting from the
current shortage date, emit (shortage_date - delivery_buffer, qty) and
advance the shortage date by 4 weeks, n times. -/
def poLoop (shortage buffer : ℤ) (qty : ℕ) : ℕ → List PORow
  | 0 => []
  | n + 1 => ⟨shortage - buffer, qty⟩ :: poLoop (shortage + 28) buffer qty n

/-- get_po_schedule, lines 55-62 of the source: three PO entries on a
4-week cycle, each released delivery_buffer days before its shortage. -/
def get_po_schedule (start_date buffer : ℤ) (qty : ℕ) : List PORow :=
  poLoop start_date buffer qty 3

/-- One summary row of combined_data (lines 92-102 and 118-128 of the
source), keeping the raw numeric values that the script formats into
display strings. -/
structure Row where
  rule : RuleCode
  qty : ℕ
  orders_per_year : ℕ
  schedule : List PORow
  holding_cost : ℚ
  buyer_cost : ℚ
  total_cost : ℚ
  notes : String
deriving DecidableEq

/-- The chained conditional classifying a rule code, lines 113-116 of
the source. -/
def notesFor (r : RuleCode) : String :=
  if r ∈ [RuleCode.B, RuleCode.C, RuleCode.F, RuleCode.G, RuleCode.H, RuleCode.I,
      RuleCode.J, RuleCode.K, RuleCode.L, RuleCode.M, RuleCode.N, RuleCode.O] then
    "Balanced"
  else if r = RuleCode.A then "High PO load"
  else if r ∈ [RuleCode.P, RuleCode.Q] then "No auto ordering"
  else "High inventory"

/-- Cost per purchase order, line 86 of the source. -/
def cost_per_po (p : Params) : ℚ := buyer_rate * p.time_per_po

/-- The body of the loop on lines 90-128 of the source, for one rule
code and its already-computed quantity: the zero-quantity branch of
lines 91-103, else the derived-cost row of lines 105-128. -/
def mkRowQ (p : Params) (r : RuleCode) (qty : ℕ) : Row :=
  if qty ≤ 0 then
    ⟨r, 0, 0, [], 0, 0, 0, "No auto ordering (manual)"⟩
  else
    let annual_demand := p.yearly_ac_demand
    let orders_per_year := ceilDiv annual_demand qty
    let avg_inventory : ℚ := (qty : ℚ) / 2
    let holding_cost : ℚ := avg_inventory * part_price
    let buyer_cost : ℚ := (orders_per_year : ℚ) * cost_per_po p
    let total_cost : ℚ := holding_cost + buyer_cost
    ⟨r, qty, orders_per_year,
      get_po_schedule p.start_shortage_date delivery_buffer qty,
      holding_cost, buyer_cost, total_cost, notesFor r⟩

/-- One iteration of the loop on line 90, looking the quantity up in
the rules dict. -/
def mkRow (p : Params) (r : RuleCode) : Row := mkRowQ p r (rules p r)

/-- combined_data, lines 89-128 of the source: one row per catalog
code, in catalog order. -/
def combined_data (p : Params) : List Row := catalog.map (mkRow p)

/-- Builds the Params record the way the script does, deriving the
weekly demand from the yearly input (line 52). -/
def mkParams (yearly ebq pan ft : ℕ) (tpo : ℚ) (d0 : ℤ) : Params :=
  ⟨derived_weekly yearly, ebq, pan, ft, yearly, tpo, d0⟩

/-- Day serial number of a Gregorian calendar date (valid for positive
years), via the standard era/year-of-era decomposition; only
differences of serial numbers matter here, so no epoch offset is
applied.  Used to name the concrete dates of the example scenario. -/
def daysFromCivil (y m d : ℕ) : ℕ :=
  let yAdj := if m ≤ 2 then y - 1 else y
  let era := yAdj / 400
  let yoe := yAdj % 400
  let mp := (m + 9) % 12
  let doy := (153 * mp + 2) / 5 + (d - 1)
  let doe := yoe * 365 + yoe / 4 - yoe / 100 + doy
  era * 146097 + doe

/-- Checked ceiling division, modelling the Python runtime semantics of
math.ceil(a / b): division by zero raises ZeroDivisionError, which the
script does not catch anywhere. -/
def zceil (a b : ℕ) : Except String ℕ :=
  if b = 0 then .error "ZeroDivisionError" else .ok (ceilDiv a b)

/-- Construction of the rules dict (lines 65-83) under Python runtime
semantics: the fallible divisions of rules G, H, M, N and O are
evaluated in source order while the dict literal is built, and an
uncaught exception aborts the whole construction. -/
def rulesE (p : Params) : Except String (List (RuleCode × ℕ)) := do
  let g ← zceil (p.weekly_demand * 2 + 1) p.ebq
  let h ← zceil (p.weekly_demand * 2 + 1) p.pan_qty
  let m ← zceil (p.weekly_demand * 2 + 1) p.ebq
  let n ← zceil (p.weekly_demand * 2 + 1) p.pan_qty
  let o ← zceil (clampSub (p.weekly_demand * 2 + 3) p.ebq) p.pan_qty
  pure [(.A, p.weekly_demand), (.B, p.ebq),
    (.C, p.fixed_time_days / 5 * p.weekly_demand),
    (.D, 100 + p.weekly_demand), (.E, 200 - 12), (.F, p.pan_qty),
    (.G, g * p.ebq), (.H, h * p.pan_qty),
    (.I, max p.ebq p.weekly_demand), (.J, max p.pan_qty p.weekly_demand),
    (.K, p.ebq), (.L, p.pan_qty),
    (.M, m * p.ebq), (.N, n * p.pan_qty),
    (.O, p.ebq + o * p.pan_qty), (.P, 0), (.Q, 0)]

/-- The whole evaluation under Python runtime semantics: build the
rules dict, then run the summary loop over its items; there is no
per-rule exception handling anywhere in the script, so an error in the
dict construction aborts everything before a single row is built. -/
def evalAll (p : Params) : Except String (List Row) := do
  let rs ← rulesE p
  pure (rs.map fun x => mkRowQ p x.1 x.2)

/-- The example scenario of the spec: yearly demand 100, EBQ 10, pan 10,
fixed time 20 business days, time per PO half an hour, first shortage
date 2026-03-20. -/
def p5 : Params := mkParams 100 10 10 20 (1 / 2) ((daysFromCivil 2026 3 20 : ℕ) : ℤ)

/-- Boundary parameter set with weekly demand 0 and EBQ 1. -/
def p8 : Params := ⟨0, 1, 1, 5, 1, 1 / 2, 0⟩

/-- An invalid parameter set with EBQ 0, the division-error example. -/
def p7bad : Params := ⟨2, 0, 10, 20, 100, 1 / 2, 0⟩

/-! ### Arithmetic bridge lemmas -/

lemma ceilDiv_le_mul (a b : ℕ) (hb : 0 < b) : a ≤ ceilDiv a b * b := by
  have h2 : a + b - 1 < (ceilDiv a b + 1) * b :=
    (Nat.div_lt_iff_lt_mul hb).mp (Nat.lt_succ_self _)
  rw [add_mul, one_mul] at h2
  generalize ceilDiv a b * b = m at h2 ⊢
  omega

lemma ceilDiv_mul_lt (a b : ℕ) (hb : 0 < b) : ceilDiv a b * b < a + b := by
  have h : ceilDiv a b * b ≤ a + b - 1 := Nat.div_mul_le_self (a + b - 1) b
  generalize ceilDiv a b * b = m at h ⊢
  omega

/-- The integer ceilDiv computes the mathematical ceiling of the exact
rational quotient. -/
lemma ceilDiv_cast (a b : ℕ) (hb : 0 < b) :
    ((ceilDiv a b : ℕ) : ℤ) = ⌈(a : ℚ) / (b : ℚ)⌉ := by
  have hbQ : (0 : ℚ) < (b : ℚ) := by exact_mod_cast hb
  symm
  rw [Int.ceil_eq_iff]
  constructor
  · rw [lt_div_iff₀ hbQ, sub_mul, one_mul]
    have h := ceilDiv_mul_lt a b hb
    have hQ : ((ceilDiv a b : ℕ) : ℚ) * (b : ℚ) < (a : ℚ) + (b : ℚ) := by
      exact_mod_cast h
    push_cast
    linarith
  · rw [div_le_iff₀ hbQ]
    have h := ceilDiv_le_mul a b hb
    have hQ : (a : ℚ) ≤ ((ceilDiv a b : ℕ) : ℚ) * (b : ℚ) := by exact_mod_cast h
    push_cast
    linarith

/-- Nat division computes the mathematical floor of the exact rational
quotient. -/
lemma floorDiv_cast (a b : ℕ) (hb : 0 < b) :
    ((a / b : ℕ) : ℤ) = ⌊(a : ℚ) / (b : ℚ)⌋ := by
  have hbQ : (0 : ℚ) < (b : ℚ) := by exact_mod_cast hb
  symm
  rw [Int.floor_eq_iff]
  constructor
  · rw [le_div_iff₀ hbQ]
    exact_mod_cast Nat.div_mul_le_self a b
  · rw [div_lt_iff₀ hbQ]
    exact_mod_cast (Nat.div_lt_iff_lt_mul hb).mp (Nat.lt_succ_self _)

lemma clampSub_eq (a b : ℕ) : clampSub a b = a - b := by
  unfold clampSub
  omega

/-- clampSub computes the rational clamp max 0 (a - b). -/
lemma clampSub_cast (a b : ℕ) :
    ((clampSub a b : ℕ) : ℚ) = max 0 ((a : ℚ) - (b : ℚ)) := by
  rw [clampSub_eq]
  rcases le_total a b with h | h
  · rw [Nat.sub_eq_zero_of_le h]
    have hQ : (a : ℚ) - (b : ℚ) ≤ 0 := by
      have : (a : ℚ) ≤ (b : ℚ) := by exact_mod_cast h
      linarith
    rw [max_eq_left hQ]
    norm_num
  · have hQ : (0 : ℚ) ≤ (a : ℚ) - (b : ℚ) := by
      have : (b : ℚ) ≤ (a : ℚ) := by exact_mod_cast h
      linarith
    rw [max_eq_right hQ]
    push_cast [Nat.cast_sub h]
    ring

/-- The rule projection of a row is the code the loop was given. -/
lemma rule_mkRowQ (p : Params) (r : RuleCode) (qty : ℕ) : (mkRowQ p r qty).rule = r := by
  unfold mkRowQ
  split <;> rfl

/-- A ceiling division of positive numbers is positive. -/
lemma ceilDiv_pos (a b : ℕ) (ha : 0 < a) (hb : 0 < b) : 0 < ceilDiv a b := by
  have h := (Nat.le_div_iff_mul_le hb).mpr (by omega : 1 * b ≤ a + b - 1)
  unfold ceilDiv
  omega

/-- Rows of a rule with zero quantity take the terminal branch of
lines 91-103. -/
lemma mkRow_zero (p : Params) (r : RuleCode) (h : rules p r = 0) :
    mkRow p r = ⟨r, 0, 0, [], 0, 0, 0, "No auto ordering (manual)"⟩ := by
  simp [mkRow, mkRowQ, h]

/-- Rows of a rule with positive quantity take the derived-cost branch
of lines 105-128. -/
lemma mkRow_pos_fields (p : Params) (r : RuleCode) (h : 0 < rules p r) :
    mkRow p r = ⟨r, rules p r, ceilDiv p.yearly_ac_demand (rules p r),
      get_po_schedule p.start_shortage_date delivery_buffer (rules p r),
      (rules p r : ℚ) / 2 * part_price,
      (ceilDiv p.yearly_ac_demand (rules p r) : ℚ) * cost_per_po p,
      (rules p r : ℚ) / 2 * part_price +
        (ceilDiv p.yearly_ac_demand (rules p r) : ℚ) * cost_per_po p,
      notesFor r⟩ := by
  have h' : ¬ rules p r ≤ 0 := by omega
  simp [mkRow, mkRowQ, h']

/-- The notes of a positive-quantity row come from the chained
conditional of lines 113-116. -/
lemma mkRow_notes_pos (p : Params) (r : RuleCode) (h : 0 < rules p r) :
    (mkRow p r).notes = notesFor r := by
  rw [mkRow_pos_fields p r h]

/-- Every row's notes value is the terminal label or the classification
of its rule code. -/
lemma notes_mem (p : Params) (r : RuleCode) :
    (mkRow p r).notes = "No auto ordering (manual)" ∨
      (0 < rules p r ∧ (mkRow p r).notes = notesFor r) := by
  rcases Nat.eq_zero_or_pos (rules p r) with h0 | hpos
  · left
    rw [mkRow_zero p r h0]
  · right
    exact ⟨hpos, mkRow_notes_pos p r hpos⟩

/-- The rule quantities do not depend on the first shortage date. -/
lemma rules_date_indep (W e pa ft y : ℕ) (tpo : ℚ) (d1 d2 : ℤ) (r : RuleCode) :
    rules ⟨W, e, pa, ft, y, tpo, d1⟩ r = rules ⟨W, e, pa, ft, y, tpo, d2⟩ r := by
  cases r <;> rfl

/-- With nonzero EBQ and pan, every checked division of the rules dict
succeeds and the dict is the pure quantity table. -/
lemma rulesE_ok (p : Params) (he : p.ebq ≠ 0) (hpa : p.pan_qty ≠ 0) :
    rulesE p = .ok (catalog.map fun r => (r, rules p r)) := by
  simp only [rulesE, zceil, if_neg he, if_neg hpa]
  rfl

/-- With nonzero EBQ and pan, the whole evaluation succeeds and returns
exactly the 17 summary rows. -/
lemma evalAll_ok (p : Params) (he : p.ebq ≠ 0) (hpa : p.pan_qty ≠ 0) :
    evalAll p = .ok (combined_data p) := by
  unfold evalAll
  rw [rulesE_ok p he hpa]
  rfl

/-- No rule code's classification label is the terminal manual label. -/
lemma notesFor_ne_manual (r : RuleCode) :
    notesFor r ≠ "No auto ordering (manual)" := by
  cases r <;> decide

/-- At the boundary weekly demand 0 and EBQ 1, every rule other than
A, C, P and Q computes a positive quantity. -/
lemma rules_pos_boundary (pa ft y : ℕ) (tpo : ℚ) (d0 : ℤ) (hpa : 0 < pa) (r : RuleCode)
    (hr : ¬(r = RuleCode.A ∨ r = RuleCode.C ∨ r = RuleCode.P ∨ r = RuleCode.Q)) :
    0 < rules ⟨0, 1, pa, ft, y, tpo, d0⟩ r := by
  cases r
  case A => exact absurd (Or.inl rfl) hr
  case B => exact Nat.one_pos
  case C => exact absurd (Or.inr (Or.inl rfl)) hr
  case D => exact Nat.add_pos_left (by norm_num) _
  case E => exact show (0 : ℕ) < 200 - 12 by norm_num
  case F => exact hpa
  case G => exact show (0 : ℕ) < ceilDiv (0 * 2 + 1) 1 * 1 by decide
  case H => exact Nat.mul_pos (ceilDiv_pos _ _ Nat.one_pos hpa) hpa
  case I => exact show (0 : ℕ) < max 1 0 by decide
  case J => exact lt_of_lt_of_le hpa (le_max_left pa 0)
  case K => exact Nat.one_pos
  case L => exact hpa
  case M => exact show (0 : ℕ) < ceilDiv (0 * 2 + 1) 1 * 1 by decide
  case N => exact Nat.mul_pos (ceilDiv_pos _ _ Nat.one_pos hpa) hpa
  case O => exact Nat.add_pos_left Nat.one_pos _
  case P => exact absurd (Or.inr (Or.inr (Or.inl rfl))) hr
  case Q => exact absurd (Or.inr (Or.inr (Or.inr rfl))) hr

/-- Under the interface minimums, every rule other than P and Q
computes a positive quantity. -/
lemma rules_pos_of_mins (y e pa ft : ℕ) (tpo : ℚ) (d0 : ℤ)
    (hy : 1 ≤ y) (he : 1 ≤ e) (hpa : 1 ≤ pa) (hft : 5 ≤ ft) (r : RuleCode)
    (hr : ¬(r = RuleCode.P ∨ r = RuleCode.Q)) :
    0 < rules (mkParams y e pa ft tpo d0) r := by
  have hW : 1 ≤ derived_weekly y := ceilDiv_pos y 52 hy (by norm_num)
  have he' : 0 < e := he
  have hpa' : 0 < pa := hpa
  have hnum : 0 < derived_weekly y * 2 + 1 := by omega
  cases r
  case A => exact hW
  case B => exact he'
  case C => exact Nat.mul_pos ((Nat.one_le_div_iff (by norm_num)).mpr hft) hW
  case D => exact Nat.add_pos_left (by norm_num) _
  case E => exact show (0 : ℕ) < 200 - 12 by norm_num
  case F => exact hpa'
  case G => exact Nat.mul_pos (ceilDiv_pos _ _ hnum he') he'
  case H => exact Nat.mul_pos (ceilDiv_pos _ _ hnum hpa') hpa'
  case I => exact lt_of_lt_of_le he' (le_max_left _ _)
  case J => exact lt_of_lt_of_le hpa' (le_max_left _ _)
  case K => exact he'
  case L => exact hpa'
  case M => exact Nat.mul_pos (ceilDiv_pos _ _ hnum he') he'
  case N => exact Nat.mul_pos (ceilDiv_pos _ _ hnum hpa') hpa'
  case O => exact Nat.add_pos_left he' _
  case P => exact absurd (Or.inl rfl) hr
  case Q => exact absurd (Or.inr rfl) hr

/-! ### Claim theorems -/

/-- C1: for every parameter set with weekly demand W at least 0, EBQ at
least 1, PAN at least 1 and FT at least 5, each rule code's order
quantity equals the section 4.1 reference table, rule C using floor
division of FT by 5 and rule O clamping its numerator to zero before
the ceiling division. -/
theorem c1_rule_table (p : Params) (hW : 0 ≤ p.weekly_demand) (hE : 1 ≤ p.ebq)
    (hP : 1 ≤ p.pan_qty) (hF : 5 ≤ p.fixed_time_days) :
    rules p .A = p.weekly_demand ∧
    rules p .B = p.ebq ∧
    (rules p .C : ℤ) = ⌊(p.fixed_time_days : ℚ) / 5⌋ * (p.weekly_demand : ℤ) ∧
    rules p .D = 100 + p.weekly_demand ∧
    rules p .E = 188 ∧
    rules p .F = p.pan_qty ∧
    (rules p .G : ℤ) = ⌈(2 * (p.weekly_demand : ℚ) + 1) / (p.ebq : ℚ)⌉ * (p.ebq : ℤ) ∧
    (rules p .H : ℤ) = ⌈(2 * (p.weekly_demand : ℚ) + 1) / (p.pan_qty : ℚ)⌉ * (p.pan_qty : ℤ) ∧
    rules p .I = max p.ebq p.weekly_demand ∧
    rules p .J = max p.pan_qty p.weekly_demand ∧
    rules p .K = p.ebq ∧
    rules p .L = p.pan_qty ∧
    (rules p .M : ℤ) = ⌈(2 * (p.weekly_demand : ℚ) + 1) / (p.ebq : ℚ)⌉ * (p.ebq : ℤ) ∧
    (rules p .N : ℤ) = ⌈(2 * (p.weekly_demand : ℚ) + 1) / (p.pan_qty : ℚ)⌉ * (p.pan_qty : ℤ) ∧
    (rules p .O : ℤ) = (p.ebq : ℤ) +
      ⌈(max 0 (2 * (p.weekly_demand : ℚ) + 3 - (p.ebq : ℚ))) / (p.pan_qty : ℚ)⌉ * (p.pan_qty : ℤ) ∧
    rules p .P = 0 ∧
    rules p .Q = 0 := by
  have hE' : 0 < p.ebq := hE
  have hP' : 0 < p.pan_qty := hP
  have hnum : ((p.weekly_demand * 2 + 1 : ℕ) : ℚ) = 2 * (p.weekly_demand : ℚ) + 1 := by
    push_cast; ring
  have hnum3 : ((p.weekly_demand * 2 + 3 : ℕ) : ℚ) = 2 * (p.weekly_demand : ℚ) + 3 := by
    push_cast; ring
  refine ⟨rfl, rfl, ?_, rfl, rfl, rfl, ?_, ?_, rfl, rfl, rfl, rfl, ?_, ?_, ?_, rfl, rfl⟩
  · show ((p.fixed_time_days / 5 * p.weekly_demand : ℕ) : ℤ) = _
    rw [Nat.cast_mul, floorDiv_cast _ 5 (by norm_num)]
    norm_num
  · show ((ceilDiv (p.weekly_demand * 2 + 1) p.ebq * p.ebq : ℕ) : ℤ) = _
    rw [Nat.cast_mul, ceilDiv_cast _ _ hE', hnum]
  · show ((ceilDiv (p.weekly_demand * 2 + 1) p.pan_qty * p.pan_qty : ℕ) : ℤ) = _
    rw [Nat.cast_mul, ceilDiv_cast _ _ hP', hnum]
  · show ((ceilDiv (p.weekly_demand * 2 + 1) p.ebq * p.ebq : ℕ) : ℤ) = _
    rw [Nat.cast_mul, ceilDiv_cast _ _ hE', hnum]
  · show ((ceilDiv (p.weekly_demand * 2 + 1) p.pan_qty * p.pan_qty : ℕ) : ℤ) = _
    rw [Nat.cast_mul, ceilDiv_cast _ _ hP', hnum]
  · show ((p.ebq + ceilDiv (clampSub (p.weekly_demand * 2 + 3) p.ebq) p.pan_qty * p.pan_qty : ℕ) : ℤ) = _
    rw [Nat.cast_add, Nat.cast_mul, ceilDiv_cast _ _ hP', clampSub_cast, hnum3]

/-- C1 witness: the rule table theorem applied at the baseline scenario
parameters. -/
theorem c1_rule_table_witness :
    (0 ≤ (mkParams 100 10 10 20 (1 / 2) 0).weekly_demand ∧
      1 ≤ (mkParams 100 10 10 20 (1 / 2) 0).ebq ∧
      1 ≤ (mkParams 100 10 10 20 (1 / 2) 0).pan_qty ∧
      5 ≤ (mkParams 100 10 10 20 (1 / 2) 0).fixed_time_days) ∧
    rules (mkParams 100 10 10 20 (1 / 2) 0) .A = (mkParams 100 10 10 20 (1 / 2) 0).weekly_demand := by
  refine ⟨⟨by decide, by decide, by decide, by decide⟩, ?_⟩
  exact (c1_rule_table (mkParams 100 10 10 20 (1 / 2) 0) (by decide) (by decide)
    (by decide) (by decide)).1

/-- C2: for every parameter set the evaluation yields exactly 17 rows,
one per catalog code A through Q with no code repeated or missing, in
catalog order. -/
theorem c2_seventeen_rows (p : Params) :
    (combined_data p).length = 17 ∧
    (combined_data p).map Row.rule = catalog ∧
    catalog = [RuleCode.A, .B, .C, .D, .E, .F, .G, .H, .I, .J, .K, .L, .M, .N, .O, .P, .Q] ∧
    catalog.Nodup := by
  refine ⟨rfl, ?_, rfl, by decide⟩
  simp [combined_data, catalog, mkRow, rule_mkRowQ]

/-- C3: for positive order quantity Q, first shortage date D0 and
delivery buffer B, the PO schedule has exactly 3 entries, entry i
carrying PO date D0 + i * 28 - B and the same quantity Q. -/
theorem c3_po_schedule (D0 B : ℤ) (Q : ℕ) (hQ : 0 < Q) :
    (get_po_schedule D0 B Q).length = 3 ∧
    get_po_schedule D0 B Q =
      ([0, 1, 2] : List ℤ).map (fun i => ⟨D0 + i * 28 - B, Q⟩) := by
  refine ⟨rfl, ?_⟩
  have h : get_po_schedule D0 B Q =
      [⟨D0 - B, Q⟩, ⟨D0 + 28 - B, Q⟩, ⟨D0 + 28 + 28 - B, Q⟩] := rfl
  rw [h]
  simp [PORow.mk.injEq]
  omega

/-- C3 witness: the schedule theorem applied at D0 = 100, B = 15,
Q = 2. -/
theorem c3_po_schedule_witness :
    (0 : ℕ) < 2 ∧
    ((get_po_schedule 100 15 2).length = 3 ∧
      get_po_schedule 100 15 2 = ([0, 1, 2] : List ℤ).map (fun i => ⟨100 + i * 28 - 15, 2⟩)) :=
  ⟨by decide, c3_po_schedule 100 15 2 (by decide)⟩

/-- C9: the documented degenerate simplifications hold exactly: rule K
equals rule B (both EBQ), rule L equals rule F (both PAN), rule M
equals rule G, and rule N equals rule H, for every parameter set. -/
theorem c9_degenerate_equalities (p : Params) :
    rules p .K = rules p .B ∧ rules p .L = rules p .F ∧
    rules p .M = rules p .G ∧ rules p .N = rules p .H ∧
    rules p .K = p.ebq ∧ rules p .L = p.pan_qty :=
  ⟨rfl, rfl, rfl, rfl, rfl, rfl⟩

/-- C4: for every rule with positive quantity, orders per year is the
ceiling of the yearly demand parameter divided by the quantity, holding
cost is half the quantity times the part price, buyer cost is orders
per year times buyer rate times time per PO, total cost is their sum,
and none of these depends on the first shortage date. -/
theorem c4_cost_model (W e pa ft y : ℕ) (tpo : ℚ) (d1 d2 : ℤ) (r : RuleCode)
    (h : 0 < rules ⟨W, e, pa, ft, y, tpo, d1⟩ r) :
    ((mkRow ⟨W, e, pa, ft, y, tpo, d1⟩ r).orders_per_year : ℤ) =
      ⌈(y : ℚ) / (rules ⟨W, e, pa, ft, y, tpo, d1⟩ r : ℚ)⌉ ∧
    (mkRow ⟨W, e, pa, ft, y, tpo, d1⟩ r).holding_cost =
      (rules ⟨W, e, pa, ft, y, tpo, d1⟩ r : ℚ) / 2 * part_price ∧
    (mkRow ⟨W, e, pa, ft, y, tpo, d1⟩ r).buyer_cost =
      ((mkRow ⟨W, e, pa, ft, y, tpo, d1⟩ r).orders_per_year : ℚ) * (buyer_rate * tpo) ∧
    (mkRow ⟨W, e, pa, ft, y, tpo, d1⟩ r).total_cost =
      (mkRow ⟨W, e, pa, ft, y, tpo, d1⟩ r).holding_cost +
        (mkRow ⟨W, e, pa, ft, y, tpo, d1⟩ r).buyer_cost ∧
    (mkRow ⟨W, e, pa, ft, y, tpo, d1⟩ r).orders_per_year =
      (mkRow ⟨W, e, pa, ft, y, tpo, d2⟩ r).orders_per_year ∧
    (mkRow ⟨W, e, pa, ft, y, tpo, d1⟩ r).holding_cost =
      (mkRow ⟨W, e, pa, ft, y, tpo, d2⟩ r).holding_cost ∧
    (mkRow ⟨W, e, pa, ft, y, tpo, d1⟩ r).buyer_cost =
      (mkRow ⟨W, e, pa, ft, y, tpo, d2⟩ r).buyer_cost ∧
    (mkRow ⟨W, e, pa, ft, y, tpo, d1⟩ r).total_cost =
      (mkRow ⟨W, e, pa, ft, y, tpo, d2⟩ r).total_cost := by
  have hrr := rules_date_indep W e pa ft y tpo d1 d2 r
  have h2 : 0 < rules ⟨W, e, pa, ft, y, tpo, d2⟩ r := hrr ▸ h
  rw [mkRow_pos_fields _ r h, mkRow_pos_fields _ r h2]
  refine ⟨ceilDiv_cast y _ h, rfl, rfl, rfl, ?_, ?_, ?_, ?_⟩
  · rw [hrr]
  · rw [hrr]
  · rw [hrr]
    rfl
  · rw [hrr]
    rfl

/-- C4 witness: the cost-model theorem applied at the baseline scenario
for rule B, with two different shortage dates. -/
theorem c4_cost_model_witness :
    0 < rules ⟨2, 10, 10, 20, 100, 1 / 2, 0⟩ RuleCode.B ∧
    ((mkRow ⟨2, 10, 10, 20, 100, 1 / 2, 0⟩ RuleCode.B).orders_per_year : ℤ) =
      ⌈(100 : ℚ) / (rules ⟨2, 10, 10, 20, 100, 1 / 2, 0⟩ RuleCode.B : ℚ)⌉ :=
  ⟨by decide, (c4_cost_model 2 10 10 20 100 (1 / 2) 0 5 RuleCode.B (by decide)).1⟩

/-- C5: in the example scenario (yearly demand 100, so weekly demand 2,
EBQ 10, pan 10, fixed time 20, first shortage 2026-03-20, buffer 15)
rule A's quantity is 2, rule B's is 10, rule G's is 10, rule O's is 10,
and every positive-quantity rule's first two PO dates are 2026-03-05
and 2026-04-02. -/
theorem c5_example_scenario :
    derived_weekly 100 = 2 ∧
    rules p5 .A = 2 ∧ rules p5 .B = 10 ∧ rules p5 .G = 10 ∧ rules p5 .O = 10 ∧
    ∀ r ∈ catalog, 0 < rules p5 r →
      ((mkRow p5 r).schedule.map PORow.poDate).take 2 =
        [((daysFromCivil 2026 3 5 : ℕ) : ℤ), ((daysFromCivil 2026 4 2 : ℕ) : ℤ)] := by
  decide

/-- C6 counterexample: catalog codes D and E have positive quantity at
the baseline scenario yet receive the default label High inventory,
refuting the claim that no catalog code falls outside the three sets. -/
theorem c6_counterexample :
    RuleCode.D ∈ catalog ∧ 0 < rules p5 RuleCode.D ∧
    (mkRow p5 RuleCode.D).notes = "High inventory" ∧
    RuleCode.E ∈ catalog ∧ 0 < rules p5 RuleCode.E ∧
    (mkRow p5 RuleCode.E).notes = "High inventory" := by
  decide

/-- C6 (amended): for every positive-quantity rule the notes label is
determined solely by rule-code membership in the three fixed sets,
with the default label High inventory received exactly by the catalog
codes D and E, which fall outside all three sets. -/
theorem c6_notes_classification (p : Params) (r : RuleCode) (hr : r ∈ catalog)
    (h : 0 < rules p r) :
    ((mkRow p r).notes = "Balanced" ↔
      r ∈ [RuleCode.B, RuleCode.C, RuleCode.F, RuleCode.G, RuleCode.H, RuleCode.I,
        RuleCode.J, RuleCode.K, RuleCode.L, RuleCode.M, RuleCode.N, RuleCode.O]) ∧
    ((mkRow p r).notes = "High PO load" ↔ r = RuleCode.A) ∧
    ((mkRow p r).notes = "No auto ordering" ↔ (r = RuleCode.P ∨ r = RuleCode.Q)) ∧
    ((mkRow p r).notes = "High inventory" ↔ (r = RuleCode.D ∨ r = RuleCode.E)) := by
  rw [mkRow_notes_pos p r h]
  cases r <;> decide

/-- C6 witness: the classification theorem applied to rule B at the
baseline scenario. -/
theorem c6_notes_classification_witness :
    (RuleCode.B ∈ catalog ∧ 0 < rules p5 RuleCode.B) ∧
    ((mkRow p5 RuleCode.B).notes = "Balanced" ↔
      RuleCode.B ∈ [RuleCode.B, RuleCode.C, RuleCode.F, RuleCode.G, RuleCode.H, RuleCode.I,
        RuleCode.J, RuleCode.K, RuleCode.L, RuleCode.M, RuleCode.N, RuleCode.O]) :=
  ⟨⟨by decide, by decide⟩, (c6_notes_classification p5 RuleCode.B (by decide) (by decide)).1⟩

/-- C7 counterexample: at the concrete invalid parameter set with
EBQ = 0, the division error raised inside rule G's formula aborts the
whole evaluation with an uncaught ZeroDivisionError: no row list is
produced at all, so no degraded row for rule G exists and the other 16
rules are not evaluated. -/
theorem c7_counterexample :
    evalAll p7bad = .error "ZeroDivisionError" ∧
    ∀ rows : List Row, evalAll p7bad ≠ .ok rows := by
  refine ⟨rfl, ?_⟩
  intro rows hrows
  rw [show evalAll p7bad = Except.error "ZeroDivisionError" from rfl] at hrows
  exact Except.noConfusion hrows

/-- C7 (amended): the driver has no per-rule error handling, so a
failure in one rule's formula aborts the whole evaluation; however for
every parameter set with EBQ and pan at least 1 no rule evaluation
fails, the evaluation returns all 17 rows, and no row carries a
degraded Error label: every notes value is one of the four ordinary
labels. -/
theorem c7_no_per_rule_catch (p : Params) (he : 1 ≤ p.ebq) (hpa : 1 ≤ p.pan_qty) :
    evalAll p = .ok (combined_data p) ∧
    (combined_data p).length = 17 ∧
    ∀ row ∈ combined_data p,
      row.notes ∈ ["No auto ordering (manual)", "Balanced", "High PO load", "High inventory"] := by
  refine ⟨evalAll_ok p (by omega) (by omega), rfl, ?_⟩
  intro row hrow
  unfold combined_data at hrow
  rcases List.mem_map.mp hrow with ⟨r, hrcat, rfl⟩
  rcases notes_mem p r with hn | ⟨hpos, hn⟩ <;> rw [hn]
  · decide
  · cases r <;> first
      | decide
      | simp [rules] at hpos

/-- C7 witness: the amended theorem applied at the baseline scenario. -/
theorem c7_no_per_rule_catch_witness :
    (1 ≤ p5.ebq ∧ 1 ≤ p5.pan_qty) ∧ evalAll p5 = .ok (combined_data p5) :=
  ⟨⟨by decide, by decide⟩, (c7_no_per_rule_catch p5 (by decide) (by decide)).1⟩

/-- C8 counterexample: at the boundary parameter set with weekly demand
0 and EBQ 1, rule A computes quantity 0 and receives the full
zero-quantity terminal treatment (quantity 0, empty schedule, zero
costs, the manual label) even though A is not one of the rules coded as
zero, refuting the only-P-and-Q part of the claim. -/
theorem c8_counterexample :
    rules p8 .A = 0 ∧
    (mkRow p8 .A).notes = "No auto ordering (manual)" ∧
    (mkRow p8 .A).schedule = [] ∧
    (mkRow p8 .A).qty = 0 ∧
    (mkRow p8 .A).total_cost = 0 ∧
    RuleCode.A ≠ RuleCode.P ∧ RuleCode.A ≠ RuleCode.Q := by
  decide

/-- C8 (amended): with weekly demand 0 and EBQ 1 the evaluation does
not divide by zero and all 17 rows are produced, but the zero-quantity
terminal treatment is keyed on the computed quantity, not the rule
code: it is applied exactly to the rules whose quantity is 0 at this
boundary, namely A, C, P and Q. -/
theorem c8_zero_boundary (W e pa ft y : ℕ) (tpo : ℚ) (d0 : ℤ)
    (hW : W = 0) (he : e = 1) (hpa : 1 ≤ pa) :
    evalAll ⟨W, e, pa, ft, y, tpo, d0⟩ = .ok (combined_data ⟨W, e, pa, ft, y, tpo, d0⟩) ∧
    ∀ r ∈ catalog,
      ((mkRow ⟨W, e, pa, ft, y, tpo, d0⟩ r).notes = "No auto ordering (manual)" ↔
        (r = RuleCode.A ∨ r = RuleCode.C ∨ r = RuleCode.P ∨ r = RuleCode.Q)) := by
  subst hW he
  have hpa' : 0 < pa := hpa
  refine ⟨evalAll_ok _ Nat.one_ne_zero (Nat.pos_iff_ne_zero.mp hpa'), ?_⟩
  intro r hr
  by_cases hz : r = RuleCode.A ∨ r = RuleCode.C ∨ r = RuleCode.P ∨ r = RuleCode.Q
  · rcases hz with rfl | rfl | rfl | rfl
    · rw [mkRow_zero ⟨0, 1, pa, ft, y, tpo, d0⟩ RuleCode.A rfl]
      simp
    · rw [mkRow_zero ⟨0, 1, pa, ft, y, tpo, d0⟩ RuleCode.C (by simp [rules])]
      simp
    · rw [mkRow_zero ⟨0, 1, pa, ft, y, tpo, d0⟩ RuleCode.P rfl]
      simp
    · rw [mkRow_zero ⟨0, 1, pa, ft, y, tpo, d0⟩ RuleCode.Q rfl]
      simp
  · have hq := rules_pos_boundary pa ft y tpo d0 hpa' r hz
    rw [mkRow_notes_pos _ _ hq]
    exact iff_of_false (notesFor_ne_manual r) hz

/-- C8 witness: the amended boundary theorem applied at the concrete
boundary parameter set. -/
theorem c8_zero_boundary_witness :
    ((0 : ℕ) = 0 ∧ (1 : ℕ) = 1 ∧ 1 ≤ (1 : ℕ)) ∧
    evalAll ⟨0, 1, 1, 5, 1, 1 / 2, 0⟩ = .ok (combined_data ⟨0, 1, 1, 5, 1, 1 / 2, 0⟩) :=
  ⟨⟨rfl, rfl, by decide⟩,
    (c8_zero_boundary 0 1 1 5 1 (1 / 2) 0 rfl rfl (by decide)).1⟩

/-- C10: under the interface minimums (yearly demand, EBQ and pan at
least 1, fixed time at least 5) the derived weekly demand is at least
1, every rule A through O computes a quantity of at least 1, and the
zero-quantity branch of the result loop is taken for exactly the two
rules P and Q. -/
theorem c10_positive_quantities (y e pa ft : ℕ) (tpo : ℚ) (d0 : ℤ)
    (hy : 1 ≤ y) (he : 1 ≤ e) (hpa : 1 ≤ pa) (hft : 5 ≤ ft) :
    1 ≤ derived_weekly y ∧
    ∀ r ∈ catalog,
      (1 ≤ rules (mkParams y e pa ft tpo d0) r ↔ ¬(r = RuleCode.P ∨ r = RuleCode.Q)) ∧
      ((mkRow (mkParams y e pa ft tpo d0) r).notes = "No auto ordering (manual)" ↔
        (r = RuleCode.P ∨ r = RuleCode.Q)) := by
  refine ⟨ceilDiv_pos y 52 hy (by norm_num), ?_⟩
  intro r hr
  by_cases hpq : r = RuleCode.P ∨ r = RuleCode.Q
  · rcases hpq with rfl | rfl
    · refine ⟨iff_of_false (Nat.not_succ_le_zero 0) (fun hn => hn (Or.inl rfl)), ?_⟩
      rw [mkRow_zero (mkParams y e pa ft tpo d0) RuleCode.P rfl]
      simp
    · refine ⟨iff_of_false (Nat.not_succ_le_zero 0) (fun hn => hn (Or.inr rfl)), ?_⟩
      rw [mkRow_zero (mkParams y e pa ft tpo d0) RuleCode.Q rfl]
      simp
  · have hq := rules_pos_of_mins y e pa ft tpo d0 hy he hpa hft r hpq
    refine ⟨iff_of_true hq hpq, ?_⟩
    rw [mkRow_notes_pos _ _ hq]
    exact iff_of_false (notesFor_ne_manual r) hpq

/-- C10 witness: the invariant theorem applied at the baseline
scenario inputs. -/
theorem c10_positive_quantities_witness :
    (1 ≤ (100 : ℕ) ∧ 1 ≤ (10 : ℕ) ∧ 1 ≤ (10 : ℕ) ∧ 5 ≤ (20 : ℕ)) ∧
    1 ≤ derived_weekly 100 :=
  ⟨⟨by decide, by decide, by decide, by decide⟩,
    (c10_positive_quantities 100 10 10 20 (1 / 2) 0 (by decide) (by decide)
      (by decide) (by decide)).1⟩

end BuyingRules
